import Mathlib

/-!
Verification of the popularity-vision multi-source ingestion pipeline.

The definitions below are a shallow embedding of the Python sources:
  - src/scripts/ingest_youtube.py    (fetch_youtube_workflows)
  - src/scripts/ingest_discourse.py  (fetch_discourse_workflows)
  - src/scripts/ingest_google.py     (fetch_google_trends, calculate_trend_direction)
  - src/scripts/run_ingestion.py     (upsert_workflows without dedup, main)
  - src/scripts/run_cron_ingestion.py (upsert_workflows with dedup, main dry-run path)
  - src/scripts/run_ingestion_test.py (upsert_workflows with dedup, same loop as cron)
  - src/api/models.py                (Workflow table, unique key, upsert target)

Python floats are modelled by rationals; `round(x, n)` is modelled by
round-half-to-even at `n` decimal digits on exact rationals.  External
network calls are modelled by environments returning either data or one of
the exception kinds the code distinguishes in its `except` clauses.
-/

/-- Exception kinds distinguished by the `except` clauses of the sources:
`googleapiclient.errors.HttpError` (ingest_youtube), `requests.exceptions.Timeout`
and `requests.exceptions.RequestException` (ingest_discourse),
`pytrends.exceptions.ResponseError` with its status code (ingest_google),
`KeyError`, and any other `Exception`. -/
inductive PyExc where
  | httpError
  | timeout
  | requestException
  | keyError
  | responseError (status : ℕ)
  | otherError
deriving DecidableEq

/-- Outcome of calling a Python function: normal return, or an uncaught
exception propagating past the function boundary. -/
inductive PyOutcome (α : Type) where
  | ret (a : α)
  | raised (e : PyExc)
deriving DecidableEq

def PyOutcome.isRet {α : Type} : PyOutcome α → Bool
  | .ret _ => true
  | .raised _ => false

/-- `requests.exceptions.Timeout` is a subclass of
`requests.exceptions.RequestException`, so both are caught by an
`except requests.exceptions.RequestException` clause. -/
def isRequestsExc : PyExc → Bool
  | .timeout => true
  | .requestException => true
  | _ => false

/-- Python `round(q, p)` on exact rational values: round half to even at `p`
decimal digits.  Computed on the numerator and denominator directly:
`q * 10^p = m / d` with `d > 0`, its floor is `f = m.fdiv d`, and the
fractional remainder compares to 1/2 as `2*(m - f*d)` compares to `d`. -/
def roundTo (p : ℕ) (q : ℚ) : ℚ :=
  let pw : ℕ := 10 ^ p
  let m : ℤ := q.num * (pw : ℤ)
  let d : ℤ := (q.den : ℤ)
  let f : ℤ := Int.fdiv m d
  let rem2 : ℤ := 2 * (m - f * d)
  let n : ℤ :=
    if rem2 < d then f
    else if d < rem2 then f + 1
    else if f % 2 = 0 then f else f + 1
  mkRat n pw

/-- A JSON-ish metric value: number, string, or the nested trend object
produced by `calculate_trend_direction` (ingest_google.py). -/
inductive MVal where
  | num (q : ℚ)
  | str (s : String)
  | trendObj (dir : String) (changePct : ℚ) (slope : Option ℚ)
deriving DecidableEq

/-- Look up a numeric entry of a metrics mapping (0 when absent or non-numeric). -/
def getNum (m : List (String × MVal)) (k : String) : ℚ :=
  match m.find? (fun p => decide (p.1 = k)) with
  | some (_, .num q) => q
  | _ => 0

/-- An in-memory record emitted by an adapter: the dicts appended to
`workflows` in the three ingest scripts. -/
structure WorkflowRecord where
  workflow_name : String
  platform : String
  country : String
  popularity_metrics : List (String × MVal)
  source_url : Option String
deriving DecidableEq

/-- A stored row of the `workflows` table (src/api/models.py): surrogate id,
the natural-key columns, metrics, source url, and the `last_updated`
timestamp (modelled as a number). -/
structure Row where
  id : ℕ
  workflow_name : String
  platform : String
  country : String
  popularity_metrics : List (String × MVal)
  source_url : Option String
  last_updated : ℕ
deriving DecidableEq

/-- The natural key (workflow_name, platform, country): the unique
constraint of src/api/models.py. -/
abbrev RecKey := String × String × String

def recKey (r : WorkflowRecord) : RecKey := (r.workflow_name, r.platform, r.country)

def rowKey (w : Row) : RecKey := (w.workflow_name, w.platform, w.country)

/-! ## Deduplicator
The duplicate-removal loop of `upsert_workflows` in run_cron_ingestion.py
(lines 61-72) and run_ingestion_test.py (lines 15-27): iterate the batch in
order, keep a record only when its key has not been seen yet. -/

def dedupAux (seen : List RecKey) : List WorkflowRecord → List WorkflowRecord
  | [] => []
  | r :: rs =>
    if recKey r ∈ seen then dedupAux seen rs
    else r :: dedupAux (recKey r :: seen) rs

def dedupRecords (l : List WorkflowRecord) : List WorkflowRecord := dedupAux [] l

/-! ## UpsertWriter
Model of `INSERT ... ON CONFLICT (workflow_name, platform, country) DO UPDATE
SET popularity_metrics = excluded.popularity_metrics, source_url =
excluded.source_url` (run_ingestion.py lines 16-27, run_cron_ingestion.py
lines 75-82).  The `set_` clause names only the two columns; `last_updated`
has `server_default=func.now()` which fires on insert only, so a conflicting
write leaves the stored `last_updated` as it was.  Postgres rejects a single
INSERT whose VALUES contain the same conflict key twice. -/

def updateRow (r : WorkflowRecord) (w : Row) : Row :=
  { w with popularity_metrics := r.popularity_metrics, source_url := r.source_url }

def freshId (store : List Row) : ℕ := (store.map Row.id).foldr max 0 + 1

def upsertOne (now : ℕ) (store : List Row) (r : WorkflowRecord) : List Row :=
  if ∃ w ∈ store, rowKey w = recKey r then
    store.map (fun w => if rowKey w = recKey r then updateRow r w else w)
  else
    store ++ [{ id := freshId store, workflow_name := r.workflow_name,
                platform := r.platform, country := r.country,
                popularity_metrics := r.popularity_metrics,
                source_url := r.source_url, last_updated := now }]

def insertAll (now : ℕ) (store : List Row) : List WorkflowRecord → List Row
  | [] => store
  | r :: rs => insertAll now (upsertOne now store r) rs

/-- One `db_session.execute(update_stmt); db_session.commit()` call. -/
def pgUpsert (now : ℕ) (store : List Row) (batch : List WorkflowRecord) :
    Except String (List Row) :=
  if (batch.map recKey).Nodup then .ok (insertAll now store batch)
  else .error "ON CONFLICT DO UPDATE command cannot affect row a second time"

/-- `upsert_workflows` of run_ingestion.py: no in-memory dedup, the raw batch
goes straight into the single INSERT statement (empty batch: no write). -/
def upsert_workflows_plain (now : ℕ) (store : List Row)
    (workflow_data : List WorkflowRecord) : Except String (List Row) :=
  if workflow_data.isEmpty then .ok store
  else pgUpsert now store workflow_data

/-- `upsert_workflows` of run_cron_ingestion.py / run_ingestion_test.py:
dedup first (keep the first record per key), then the single INSERT; returns
the number of unique workflows processed. -/
def upsert_workflows_cron (now : ℕ) (store : List Row)
    (workflow_data : List WorkflowRecord) : Except String (List Row × ℕ) :=
  if workflow_data.isEmpty then .ok (store, 0)
  else
    let uniq := dedupRecords workflow_data
    match pgUpsert now store uniq with
    | .ok s' => .ok (s', uniq.length)
    | .error e => .error e

/-- The write/dry-run decision of `main` in run_cron_ingestion.py (lines
230-236): `if not args.dry_run and workflows: upsert...` else in dry-run
report `len(workflows)` (the collected, not yet deduplicated, list) and do
not touch the store. -/
def cronProcess (dryRun : Bool) (now : ℕ) (store : List Row)
    (workflows : List WorkflowRecord) : Except String (List Row × ℕ) :=
  if ¬dryRun ∧ ¬workflows.isEmpty then upsert_workflows_cron now store workflows
  else if dryRun then .ok (store, workflows.length)
  else .ok (store, 0)

def countKey (s : List Row) (k : RecKey) : ℕ :=
  s.countP (fun w => decide (rowKey w = k))

def rowKeysNodup (s : List Row) : Prop := (s.map rowKey).Nodup

/-! ## YouTube adapter (src/scripts/ingest_youtube.py)
`fetch_youtube_workflows`: per keyword, paginate the search up to 5 pages;
collect all video ids; dedup ids keeping the first occurrence
(`dict.fromkeys`); fetch statistics in batches of 50; skip videos with
`views == 0`; emit one record per surviving video.  One `try` wraps both
phases, catching only `googleapiclient.errors.HttpError`; on that exception
the function returns the records appended so far. -/

/-- One item of a `videos().list` statistics response: video id, snippet
title, and the three raw counters. -/
structure YtVideo where
  vid : String
  title : String
  views : ℕ
  likes : ℕ
  comments : ℕ
deriving DecidableEq

/-- The external YouTube Data API: configuredness of the key, one
`search().list` call per (keyword, page index) returning ids plus whether a
next page token is present, and one `videos().list` call per id batch. -/
structure YtEnv where
  apiKeyOk : Bool
  search : String → ℕ → Except PyExc (List String × Bool)
  stats : List String → Except PyExc (List YtVideo)

/-- `round(likes / views, 6) if views > 0 else 0`. -/
def ytLikeToView (likes views : ℕ) : ℚ :=
  if views > 0 then roundTo 6 ((likes : ℚ) / (views : ℚ)) else 0

/-- `round(comments / views, 6) if views > 0 else 0`. -/
def ytCommentToView (comments views : ℕ) : ℚ :=
  if views > 0 then roundTo 6 ((comments : ℚ) / (views : ℚ)) else 0

/-- `round((likes + comments) / views, 6) if views > 0 else 0`. -/
def ytEngagement (likes comments views : ℕ) : ℚ :=
  if views > 0 then roundTo 6 (((likes : ℚ) + (comments : ℚ)) / (views : ℚ)) else 0

/-- The per-video processing body: `if views == 0: continue`, otherwise
build the metrics dict and append the workflow record. -/
def ytProcessItem (v : YtVideo) : Option WorkflowRecord :=
  if v.views = 0 then none
  else some
    { workflow_name := v.title
      platform := "YouTube"
      country := "Global"
      popularity_metrics :=
        [("views", .num (v.views : ℚ)),
         ("likes", .num (v.likes : ℚ)),
         ("comments", .num (v.comments : ℚ)),
         ("like_to_view_ratio", .num (ytLikeToView v.likes v.views)),
         ("comment_to_view_ratio", .num (ytCommentToView v.comments v.views)),
         ("total_engagement", .num ((v.likes + v.comments : ℕ) : ℚ)),
         ("engagement_score", .num (ytEngagement v.likes v.comments v.views))]
      source_url := some ("https://www.youtube.com/watch?v=" ++ v.vid) }

/-- The `while pages_processed < max_pages` search loop for one keyword
(`fuel` is the remaining page budget, 5 at the start); stops early when no
next page token comes back.  An HttpError propagates. -/
def ytSearchKw (env : YtEnv) (kw : String) (page : ℕ) : ℕ → Except PyExc (List String)
  | 0 => .ok []
  | fuel + 1 =>
    match env.search kw page with
    | .error e => .error e
    | .ok (ids, next) =>
      if next then
        match ytSearchKw env kw (page + 1) fuel with
        | .error e => .error e
        | .ok rest => .ok (ids ++ rest)
      else .ok ids

/-- The outer `for keyword in keywords` search loop collecting
`all_video_ids`. -/
def ytAllIds (env : YtEnv) : List String → Except PyExc (List String)
  | [] => .ok []
  | kw :: kws =>
    match ytSearchKw env kw 0 5 with
    | .error e => .error e
    | .ok ids =>
      match ytAllIds env kws with
      | .error e => .error e
      | .ok rest => .ok (ids ++ rest)

/-- `list(dict.fromkeys(ids))`: drop duplicates, keep first occurrences. -/
def dedupKeepFirst (seen : List String) : List String → List String
  | [] => []
  | x :: xs =>
    if x ∈ seen then dedupKeepFirst seen xs
    else x :: dedupKeepFirst (x :: seen) xs

/-- `range(0, len(ids), batch_size)` slicing into chunks of `n` (fuel is the
list length, consumed at least one element per step). -/
def chunksF (n : ℕ) : ℕ → List String → List (List String)
  | 0, _ => []
  | _, [] => []
  | fuel + 1, x :: xs => (x :: xs.take (n - 1)) :: chunksF n fuel (xs.drop (n - 1))

def chunks (n : ℕ) (l : List String) : List (List String) := chunksF n l.length l

/-- The statistics phase over the id batches: on an HttpError the loop stops
and the records collected so far are what the handler returns. -/
def ytStats (env : YtEnv) : List (List String) → List WorkflowRecord × Option PyExc
  | [] => ([], none)
  | b :: bs =>
    match env.stats b with
    | .error e => ([], some e)
    | .ok items =>
      (items.filterMap ytProcessItem ++ (ytStats env bs).1, (ytStats env bs).2)

/-- `fetch_youtube_workflows`: missing API key returns `[]`; the single
`try` around both phases catches `HttpError` only, returning the records
collected so far; any other exception kind would propagate past the
function boundary. -/
def fetch_youtube_workflows (env : YtEnv) (keywords : List String) :
    PyOutcome (List WorkflowRecord) :=
  if env.apiKeyOk = false then .ret []
  else
    match ytAllIds env keywords with
    | .error e => if e = .httpError then .ret [] else .raised e
    | .ok ids =>
      if ids.isEmpty then .ret []
      else
        match (ytStats env (chunks 50 (dedupKeepFirst [] ids))).2 with
        | none => .ret (ytStats env (chunks 50 (dedupKeepFirst [] ids))).1
        | some e =>
          if e = .httpError then .ret (ytStats env (chunks 50 (dedupKeepFirst [] ids))).1
          else .raised e

/-! ## Discourse adapter (src/scripts/ingest_discourse.py)
`fetch_discourse_workflows`: per keyword, page through `search.json` until a
page has no topics or the page budget is reached; per topic, fetch its
details unless its id was already seen (adapter-level dedup), skip topics
with `views == 0 and reply_count == 0 and like_count == 0`, emit a record
otherwise.  Item-level failures (Timeout, RequestException, KeyError, any
Exception) are each caught and skip only that topic; the per-keyword `try`
catches only `requests.exceptions.RequestException` from the search calls. -/

/-- One topic of a `search.json` response (`topic['id']`, `topic['title']`). -/
structure DTopic where
  id : ℕ
  title : String
deriving DecidableEq

/-- The fields read from a `/t/{id}.json` topic response: `title`, `views`,
`reply_count`, `like_count`, and the number of `details.participants`. -/
structure DTopicData where
  title : String
  views : ℕ
  reply_count : ℕ
  like_count : ℕ
  contributors : ℕ
deriving DecidableEq

/-- The external Discourse forum: one search call per (keyword, page) and
one topic-details call per topic id. -/
structure DscEnv where
  search : String → ℕ → Except PyExc (List DTopic)
  topic : ℕ → Except PyExc DTopicData

/-- `round(replies / views, 6) if views > 0 else 0`. -/
def dscReplyToView (replies views : ℕ) : ℚ :=
  if views > 0 then roundTo 6 ((replies : ℚ) / (views : ℚ)) else 0

/-- `round(likes / views, 6) if views > 0 else 0`. -/
def dscLikeToView (likes views : ℕ) : ℚ :=
  if views > 0 then roundTo 6 ((likes : ℚ) / (views : ℚ)) else 0

/-- `round(contributors / views, 6) if views > 0 else 0`. -/
def dscContributorToView (contributors views : ℕ) : ℚ :=
  if views > 0 then roundTo 6 ((contributors : ℚ) / (views : ℚ)) else 0

/-- `round(total_engagement / views, 6) if views > 0 else 0`. -/
def dscEngagement (total views : ℕ) : ℚ :=
  if views > 0 then roundTo 6 ((total : ℚ) / (views : ℚ)) else 0

/-- `round(replies / contributors, 2) if contributors > 0 else 0` — note the
precision 2, unlike the view-denominator ratios. -/
def dscRepliesPerContributor (replies contributors : ℕ) : ℚ :=
  if contributors > 0 then roundTo 2 ((replies : ℚ) / (contributors : ℚ)) else 0

/-- The per-topic body after details arrive: the zero-engagement skip and
the metrics dict built from the popularity signals. -/
def dscProcessItem (topic_id : ℕ) (d : DTopicData) : Option WorkflowRecord :=
  if d.views = 0 ∧ d.reply_count = 0 ∧ d.like_count = 0 then none
  else
    let total := d.reply_count + d.like_count + d.contributors
    some
      { workflow_name := d.title
        platform := "Discourse"
        country := "Global"
        popularity_metrics :=
          [("views", .num (d.views : ℚ)),
           ("replies", .num (d.reply_count : ℚ)),
           ("likes", .num (d.like_count : ℚ)),
           ("contributors", .num (d.contributors : ℚ)),
           ("reply_to_view_ratio", .num (dscReplyToView d.reply_count d.views)),
           ("like_to_view_ratio", .num (dscLikeToView d.like_count d.views)),
           ("contributor_to_view_ratio", .num (dscContributorToView d.contributors d.views)),
           ("total_engagement", .num (total : ℚ)),
           ("engagement_score", .num (dscEngagement total d.views)),
           ("replies_per_contributor", .num (dscRepliesPerContributor d.reply_count d.contributors))]
        source_url := some ("https://community.n8n.io/t/" ++ toString topic_id) }

/-- The `for i, topic in enumerate(topics)` loop of one page: thread the
`seen_urls` set and the `workflows` list; every item-level exception is
caught by one of the four `except` clauses and skips only that topic. -/
def dscTopics (env : DscEnv) (seen : List ℕ) (ws : List WorkflowRecord) :
    List DTopic → List ℕ × List WorkflowRecord
  | [] => (seen, ws)
  | t :: ts =>
    if t.id ∈ seen then dscTopics env seen ws ts
    else
      let seen' := t.id :: seen
      match env.topic t.id with
      | .error _ => dscTopics env seen' ws ts
      | .ok d =>
        match dscProcessItem t.id d with
        | none => dscTopics env seen' ws ts
        | some r => dscTopics env seen' (ws ++ [r]) ts

/-- The `while page < max_pages` loop of one keyword (`fuel` = remaining
page budget); stops when a page has no topics; a search exception escapes
this loop carrying the state mutated so far. -/
def dscPages (env : DscEnv) (kw : String) (seen : List ℕ) (ws : List WorkflowRecord)
    (page : ℕ) : ℕ → List ℕ × List WorkflowRecord × Option PyExc
  | 0 => (seen, ws, none)
  | fuel + 1 =>
    match env.search kw page with
    | .error e => (seen, ws, some e)
    | .ok topics =>
      if topics.isEmpty then (seen, ws, none)
      else
        dscPages env kw (dscTopics env seen ws topics).1
          (dscTopics env seen ws topics).2 (page + 1) fuel

/-- The outer keyword loop: each keyword's pages run inside a `try` whose
`except requests.exceptions.RequestException` moves on to the next keyword;
any other exception kind from the search level would propagate out of the
function. -/
def dscKeywords (env : DscEnv) (maxPages : ℕ) (seen : List ℕ)
    (ws : List WorkflowRecord) : List String → PyOutcome (List WorkflowRecord)
  | [] => .ret ws
  | kw :: rest =>
    match dscPages env kw seen ws 0 maxPages with
    | (seen', ws', none) => dscKeywords env maxPages seen' ws' rest
    | (seen', ws', some e) =>
      if isRequestsExc e then dscKeywords env maxPages seen' ws' rest
      else .raised e

/-- `fetch_discourse_workflows(keywords, max_keywords, max_pages_per_keyword)`:
the keyword list is truncated when `max_keywords` is truthy and smaller than
the list, and the page budget defaults to 10 when `max_pages_per_keyword` is
falsy. -/
def fetch_discourse_workflows (env : DscEnv) (keywords : List String)
    (maxKeywords : Option ℕ) (maxPagesPerKeyword : Option ℕ) :
    PyOutcome (List WorkflowRecord) :=
  let kws := match maxKeywords with
    | some m => if m ≠ 0 ∧ m < keywords.length then keywords.take m else keywords
    | none => keywords
  let maxPages := match maxPagesPerKeyword with
    | some m => if m = 0 then 10 else m
    | none => 10
  dscKeywords env maxPages [] [] kws

/-! ## Google Trends adapter (src/scripts/ingest_google.py)
`fetch_google_trends`: per (keyword, country), up to 3 attempts; a
`ResponseError` with status 429 sleeps `(attempt+1)*5` seconds and retries,
any other `ResponseError` or `Exception` abandons the pair; on success the
12-month and 3-month interest series are turned into one record (or none
when no data is available). -/

/-- Data read from one successful pytrends round trip for a pair: the
12-month and 3-month interest series for the keyword, whether the keyword
column is present in each frame, and the related-queries row counts. -/
structure GData where
  i12 : List ℚ
  i12HasKw : Bool
  i3 : List ℚ
  i3HasKw : Bool
  relTop : ℕ
  relRising : ℕ
deriving DecidableEq

/-- The external pytrends service: one round trip per
(keyword, country, attempt index). -/
structure GEnv where
  trends : String → String → ℕ → Except PyExc GData

def listMean (l : List ℚ) : ℚ := l.sum / (l.length : ℚ)

def listMax (l : List ℚ) : ℚ := l.foldr max 0

/-- Python `int(x)`: truncation toward zero. -/
def ratTrunc (q : ℚ) : ℤ := Int.tdiv q.num (q.den : ℤ)

/-- Sample variance (pandas `std` squares this with `ddof=1`); 0 for series
shorter than 2 where pandas would produce NaN (no claim touches this
field). -/
def listVar (l : List ℚ) : ℚ :=
  if 2 ≤ l.length then
    ((l.map (fun x => (x - listMean l) * (x - listMean l))).sum) / ((l.length : ℚ) - 1)
  else 0

/-- The trailing window `df[keyword].tail(min(days, len(df)))`. -/
def recentWindow (values : List ℚ) (days : ℕ) : List ℚ :=
  values.drop (values.length - min days values.length)

/-- The inline least-squares slope over x = 0..n-1:
`(n*Σxy - Σx*Σy) / (n*Σx² - (Σx)²)`. -/
def linSlope (ys : List ℚ) : ℚ :=
  let n : ℚ := (ys.length : ℚ)
  let xs : List ℚ := (List.range ys.length).map (fun i => (i : ℚ))
  let sxy := ((xs.zip ys).map (fun p => p.1 * p.2)).sum
  let sx := xs.sum
  let sy := ys.sum
  let sxx := (xs.map (fun x => x * x)).sum
  (n * sxy - sx * sy) / (n * sxx - sx * sx)

/-- `((end_value - start_value) / start_value) * 100` rounded to 2 places,
where a non-positive window-start value is replaced by 1 first. -/
def pctChange (ys : List ℚ) : ℚ :=
  let start := ys.headD 0
  let sv := if start > 0 then start else 1
  let ev := ys.getLastD 0
  roundTo 2 (((ev - sv) / sv) * 100)

/-- `calculate_trend_direction(df, keyword, days)`: `unknown` for an empty
frame or missing keyword column, `insufficient_data` for a window shorter
than 2, otherwise the slope-sign classification with dead zone 0.1 plus the
percentage change and the slope rounded to 4 places. -/
def calculate_trend_direction (hasKw : Bool) (values : List ℚ) (days : ℕ) : MVal :=
  if values.isEmpty ∨ hasKw = false then .trendObj "unknown" 0 none
  else
    let recent := recentWindow values days
    if recent.length < 2 then .trendObj "insufficient_data" 0 none
    else
      let slope := linSlope recent
      let dir :=
        if slope > 1/10 then "trending_up"
        else if slope < -(1/10) then "trending_down"
        else "stable"
      .trendObj dir (pctChange recent) (some (roundTo 4 slope))

/-- `round((current_interest / annual_average) if annual_average > 0 else 0, 2)`
— precision 2, not 6. -/
def gMomentum (currentInterest annualAverage : ℚ) : ℚ :=
  roundTo 2 (if annualAverage > 0 then currentInterest / annualAverage else 0)

/-- Rational stand-in for the floating-point standard deviation
`round(df.std(), 2)` (no claim depends on this field). -/
def gVolatility (l : List ℚ) : ℚ := roundTo 2 (Rat.sqrt (listVar l))

/-- The record built inside the
`if not interest_12m_df.empty and keyword in interest_12m_df.columns` block. -/
def gRecord (kw c : String) (d : GData) : WorkflowRecord :=
  let current_interest := if d.i3.isEmpty then 0 else roundTo 2 (listMean d.i3)
  let annual_average := roundTo 2 (listMean d.i12)
  let peak_interest : ℚ := ((ratTrunc (listMax d.i12) : ℤ) : ℚ)
  let recent_peak : ℚ := if d.i3.isEmpty then 0 else ((ratTrunc (listMax d.i3) : ℤ) : ℚ)
  let volatility := gVolatility d.i12
  { workflow_name := "Search Trend: " ++ kw
    platform := "Google Trends"
    country := c
    popularity_metrics :=
      [("relative_search_interest", .num current_interest),
       ("annual_average_interest", .num annual_average),
       ("peak_interest_12m", .num peak_interest),
       ("recent_peak_interest", .num recent_peak),
       ("trend_30d", calculate_trend_direction d.i3HasKw d.i3 30),
       ("trend_60d", calculate_trend_direction d.i3HasKw d.i3 60),
       ("trend_90d", calculate_trend_direction d.i3HasKw d.i3 90),
       ("momentum_score", .num (gMomentum current_interest annual_average)),
       ("volatility", .num volatility),
       ("related_queries_count", .num (((d.relTop + d.relRising : ℕ)) : ℚ)),
       ("rising_queries_count", .num ((d.relRising : ℕ) : ℚ)),
       ("timeframe_analyzed", .str "12 months"),
       ("data_points", .num ((d.i12.length : ℕ) : ℚ)),
       ("search_consistency",
        .str (if volatility < 15 then "high" else if volatility < 30 then "medium" else "low"))]
    source_url := some ("https://trends.google.com/trends/explore?q=" ++
      (kw.replace " " "%20") ++ "&geo=" ++ c) }

/-- The retry loop of one (keyword, country) pair: up to 3 attempts, a 429
`ResponseError` records a backoff wait of `(attempt+1)*5` seconds and
retries, any other error abandons the pair.  On success: no record when the
12-month frame is empty or lacks the keyword; a nonempty 3-month frame
without the keyword column raises `KeyError` at
`interest_3m_df[keyword].mean()`, caught by `except Exception` which also
abandons the pair.  Returns the record (if any) and the backoff waits. -/
def gAttempts (env : GEnv) (kw c : String) : ℕ → ℕ → Option WorkflowRecord × List ℕ
  | _, 0 => (none, [])
  | attempt, fuel + 1 =>
    match env.trends kw c attempt with
    | .ok d =>
      if ¬d.i12.isEmpty ∧ d.i12HasKw = true then
        if ¬d.i3.isEmpty ∧ d.i3HasKw = false then (none, [])
        else (some (gRecord kw c d), [])
      else (none, [])
    | .error (.responseError s) =>
      if s = 429 then
        ((gAttempts env kw c (attempt + 1) fuel).1,
          ((attempt + 1) * 5) :: (gAttempts env kw c (attempt + 1) fuel).2)
      else (none, [])
    | .error _ => (none, [])

/-- The `for country in countries` loop of one keyword, concatenating the
records and the backoff waits. -/
def gCountries (env : GEnv) (kw : String) : List String → List WorkflowRecord × List ℕ
  | [] => ([], [])
  | c :: cs =>
    ((gAttempts env kw c 0 3).1.toList ++ (gCountries env kw cs).1,
      (gAttempts env kw c 0 3).2 ++ (gCountries env kw cs).2)

/-- `fetch_google_trends(keywords, countries)`: all pairs in order; every
exception is caught inside the pair loop, so the function itself always
returns its list. -/
def fetch_google_trends (env : GEnv) : List String → List String →
    List WorkflowRecord × List ℕ
  | [], _ => ([], [])
  | kw :: rest, countries =>
    ((gCountries env kw countries).1 ++ (fetch_google_trends env rest countries).1,
      (gCountries env kw countries).2 ++ (fetch_google_trends env rest countries).2)

/-! ## run_ingestion.py main
Collection concatenates the three adapters' outputs in order (Discourse,
YouTube, Google Trends) and passes the aggregate to `upsert_workflows`
directly — there is no dedup step in this script. -/

/-- The collection phase of `main` in run_ingestion.py: an exception raised
by a fetch crashes the run. -/
def run_ingestion_collect (envD : DscEnv) (envY : YtEnv) (envG : GEnv)
    (keywords countries : List String) : PyOutcome (List WorkflowRecord) :=
  match fetch_discourse_workflows envD keywords none none with
  | .raised e => .raised e
  | .ret d =>
    match fetch_youtube_workflows envY keywords with
    | .raised e => .raised e
    | .ret y =>
      let g := (fetch_google_trends envG keywords countries).1
      .ret (d ++ y ++ g)

/-- The write phase of `main` in run_ingestion.py: the aggregate goes to
`upsert_workflows` (no dedup); a database error propagates and crashes the
run. -/
def run_ingestion_write (now : ℕ) (store : List Row) :
    PyOutcome (List WorkflowRecord) → PyOutcome (List Row)
  | .raised e => .raised e
  | .ret all =>
    match upsert_workflows_plain now store all with
    | .ok s' => .ret s'
    | .error _ => .raised .otherError

/-- The records of a `PyOutcome` return, `[]` for a raised exception (used
only to project concrete outcomes in closed statements). -/
def pyList (o : PyOutcome (List WorkflowRecord)) : List WorkflowRecord :=
  match o with
  | .ret l => l
  | .raised _ => []

/-! ## Concrete instances used in closed statements -/

/-- First record of the spec's §8 dedup scenario: key (A, Video, Global),
views 100, likes 10. -/
def recA : WorkflowRecord :=
  ⟨"A", "Video", "Global", [("views", .num 100), ("likes", .num 10)], none⟩

/-- Second record of the spec's §8 dedup scenario: same key, views 200,
likes 40. -/
def recB : WorkflowRecord :=
  ⟨"A", "Video", "Global", [("views", .num 200), ("likes", .num 40)], none⟩

/-- A stored row with key (T, YouTube, Global) written at time 100. -/
def row0 : Row :=
  ⟨1, "T", "YouTube", "Global", [("views", .num 10)], some "old", 100⟩

/-- An incoming record for the key of `row0` with fresh metrics and url. -/
def rec0 : WorkflowRecord :=
  ⟨"T", "YouTube", "Global", [("views", .num 20)], some "new"⟩

/-- `row0` after the conflict write of `rec0`: metrics and url replaced,
id and `last_updated` untouched. -/
def row0' : Row :=
  ⟨1, "T", "YouTube", "Global", [("views", .num 20)], some "new", 100⟩

/-- A YouTube item with zero views but nonzero likes. -/
def ytZeroViews : YtVideo := ⟨"v1", "T", 0, 5, 0⟩

/-- A YouTube environment that rate-limits every search except for keyword
k2, which has one page with one video of 5 views and 1 like. -/
def ytEnvRL : YtEnv :=
  ⟨true,
   fun kw _ => if kw = "k2" then .ok (["v2"], false) else .error .httpError,
   fun _ => .ok [⟨"v2", "T2", 5, 1, 0⟩]⟩

/-- A YouTube environment with one keyword page of two distinct videos that
share the title T (duplicate natural keys from one source). -/
def ytEnvDupTitle : YtEnv :=
  ⟨true,
   fun _ _ => .ok (["a", "b"], false),
   fun _ => .ok [⟨"a", "T", 10, 1, 0⟩, ⟨"b", "T", 20, 2, 1⟩]⟩

/-- A Discourse environment whose searches find no topics. -/
def dscEnvEmpty : DscEnv :=
  ⟨fun _ _ => .ok [], fun _ => .error .requestException⟩

/-- A Discourse environment whose every call fails with a requests error. -/
def dscEnvFail : DscEnv :=
  ⟨fun _ _ => .error .requestException, fun _ => .error .requestException⟩

/-- A YouTube environment whose every call fails with an HttpError. -/
def ytEnvFail : YtEnv :=
  ⟨true, fun _ _ => .error .httpError, fun _ => .error .httpError⟩

/-- A YouTube environment whose calls fail with an exception that is not a
`googleapiclient.errors.HttpError` — e.g. a transport/socket error or a
`KeyError` from a malformed response, none of which the adapter's single
`except HttpError` clause catches. -/
def ytEnvTransport : YtEnv :=
  ⟨true, fun _ _ => .error .otherError, fun _ => .error .otherError⟩

/-- A Discourse environment whose search calls fail with a `KeyError`,
which is not in the `requests.exceptions.RequestException` family the
per-keyword handler catches. -/
def dscEnvKeyErr : DscEnv :=
  ⟨fun _ _ => .error .keyError, fun _ => .error .keyError⟩

/-- A YouTube environment producing one video with 1 view and no likes. -/
def ytEnvOne : YtEnv :=
  ⟨true, fun _ _ => .ok (["v"], false), fun _ => .ok [⟨"v", "W", 1, 0, 0⟩]⟩

/-- A pytrends environment whose every call fails. -/
def gEnvFail : GEnv := ⟨fun _ _ _ => .error .otherError⟩

/-- Interest data with a nonempty 12-month series containing the keyword. -/
def gDataOk : GData := ⟨[50, 60], true, [55], true, 0, 0⟩

/-- A pytrends environment that rate-limits attempts 0 and 1 and succeeds on
attempt 2. -/
def gEnvRetry : GEnv :=
  ⟨fun _ _ attempt =>
    if attempt = 0 ∨ attempt = 1 then .error (.responseError 429)
    else .ok gDataOk⟩

/-- A pytrends environment failing keyword k1 with a non-retryable error and
succeeding for other keywords. -/
def gEnvMix : GEnv :=
  ⟨fun kw _ _ => if kw = "k1" then .error .otherError else .ok gDataOk⟩

/-! ## Helper lemmas -/

theorem dedupAux_keys (l : List WorkflowRecord) : ∀ seen : List RecKey,
    ((dedupAux seen l).map recKey).Nodup ∧
      ∀ k ∈ (dedupAux seen l).map recKey, k ∉ seen := by
  induction l with
  | nil => intro seen; exact ⟨List.nodup_nil, by simp [dedupAux]⟩
  | cons r rs ih =>
    intro seen
    by_cases h : recKey r ∈ seen
    · simp only [dedupAux, if_pos h]
      exact ih seen
    · simp only [dedupAux, if_neg h]
      obtain ⟨ihn, ihs⟩ := ih (recKey r :: seen)
      refine ⟨?_, ?_⟩
      · simp only [List.map_cons, List.nodup_cons]
        exact ⟨fun hmem => (ihs _ hmem) (List.mem_cons_self _ _), ihn⟩
      · intro k hk
        simp only [List.map_cons, List.mem_cons] at hk
        rcases hk with rfl | hk
        · exact h
        · exact fun hks => (ihs k hk) (List.mem_cons_of_mem _ hks)

theorem dedupAux_find (l : List WorkflowRecord) (k : RecKey) :
    ∀ seen : List RecKey, k ∉ seen →
    (dedupAux seen l).find? (fun x => decide (recKey x = k)) =
      l.find? (fun x => decide (recKey x = k)) := by
  induction l with
  | nil => intro seen _; simp [dedupAux]
  | cons r rs ih =>
    intro seen hk
    by_cases h : recKey r ∈ seen
    · have hne : ¬(recKey r = k) := fun he => hk (he ▸ h)
      simp only [dedupAux, if_pos h]
      rw [ih seen hk, List.find?_cons_of_neg _ (by simpa using hne)]
    · by_cases he : recKey r = k
      · simp only [dedupAux, if_neg h]
        rw [List.find?_cons_of_pos _ (by simpa using he),
          List.find?_cons_of_pos _ (by simpa using he)]
      · have hk' : k ∉ recKey r :: seen := by
          simp only [List.mem_cons, not_or]
          exact ⟨fun hh => he hh.symm, hk⟩
        simp only [dedupAux, if_neg h]
        rw [List.find?_cons_of_neg _ (by simpa using he),
          List.find?_cons_of_neg _ (by simpa using he)]
        exact ih (recKey r :: seen) hk'

theorem mem_upsertOne_of_ne (now : ℕ) (store : List Row) (r : WorkflowRecord)
    (w : Row) (hw : w ∈ store) (hne : rowKey w ≠ recKey r) :
    w ∈ upsertOne now store r := by
  unfold upsertOne
  split
  · exact List.mem_map.mpr ⟨w, hw, by rw [if_neg hne]⟩
  · exact List.mem_append_left _ hw

theorem updateRow_mem_upsertOne (now : ℕ) (store : List Row) (r : WorkflowRecord)
    (w : Row) (hw : w ∈ store) (hk : rowKey w = recKey r) :
    updateRow r w ∈ upsertOne now store r := by
  unfold upsertOne
  rw [if_pos ⟨w, hw, hk⟩]
  exact List.mem_map.mpr ⟨w, hw, by rw [if_pos hk]⟩

theorem upsertOne_keys_of_exists (now : ℕ) (store : List Row) (r : WorkflowRecord)
    (h : ∃ w ∈ store, rowKey w = recKey r) :
    (upsertOne now store r).map rowKey = store.map rowKey := by
  unfold upsertOne
  rw [if_pos h, List.map_map]
  refine List.map_congr_left (fun a _ => ?_)
  show rowKey (if rowKey a = recKey r then updateRow r a else a) = rowKey a
  by_cases hc : rowKey a = recKey r
  · rw [if_pos hc]; rfl
  · rw [if_neg hc]

theorem upsertOne_keys_of_not (now : ℕ) (store : List Row) (r : WorkflowRecord)
    (h : ¬∃ w ∈ store, rowKey w = recKey r) :
    (upsertOne now store r).map rowKey = store.map rowKey ++ [recKey r] := by
  unfold upsertOne
  rw [if_neg h, List.map_append]
  rfl

theorem upsertOne_nodup (now : ℕ) (store : List Row) (r : WorkflowRecord)
    (h : rowKeysNodup store) : rowKeysNodup (upsertOne now store r) := by
  by_cases hx : ∃ w ∈ store, rowKey w = recKey r
  · rw [rowKeysNodup, upsertOne_keys_of_exists now store r hx]
    exact h
  · rw [rowKeysNodup, upsertOne_keys_of_not now store r hx]
    have hk : recKey r ∉ store.map rowKey := by
      intro hmem
      obtain ⟨w, hw, he⟩ := List.mem_map.mp hmem
      exact hx ⟨w, hw, he⟩
    have h' : (store.map rowKey).Nodup := h
    simp [List.nodup_append, h', hk]

theorem countKey_eq_keys (s : List Row) (k : RecKey) :
    countKey s k = (s.map rowKey).countP (fun x => decide (x = k)) := by
  rw [countKey, List.countP_map]
  rfl

theorem countKey_upsertOne_of_exists (now : ℕ) (store : List Row)
    (r : WorkflowRecord) (h : ∃ w ∈ store, rowKey w = recKey r) (k : RecKey) :
    countKey (upsertOne now store r) k = countKey store k := by
  rw [countKey_eq_keys, countKey_eq_keys, upsertOne_keys_of_exists now store r h]

theorem countKey_upsertOne_of_ne (now : ℕ) (store : List Row)
    (r : WorkflowRecord) (k : RecKey) (hne : k ≠ recKey r) :
    countKey (upsertOne now store r) k = countKey store k := by
  by_cases hx : ∃ w ∈ store, rowKey w = recKey r
  · exact countKey_upsertOne_of_exists now store r hx k
  · rw [countKey_eq_keys, countKey_eq_keys, upsertOne_keys_of_not now store r hx,
      List.countP_append]
    have : ¬(recKey r = k) := fun he => hne he.symm
    simp [this]

theorem countKey_one_of_nodup (store : List Row) (h : rowKeysNodup store)
    (w : Row) (hw : w ∈ store) : countKey store (rowKey w) = 1 := by
  induction store with
  | nil => cases hw
  | cons a as ih =>
    rw [rowKeysNodup, List.map_cons, List.nodup_cons] at h
    rcases List.mem_cons.mp hw with rfl | hw'
    · rw [countKey, List.countP_cons]
      have hz : as.countP (fun x => decide (rowKey x = rowKey w)) = 0 := by
        refine List.countP_eq_zero.mpr (fun x hx => ?_)
        simp only [decide_eq_true_eq]
        intro he
        exact h.1 (List.mem_map.mpr ⟨x, hx, he⟩)
      rw [hz]
      simp
    · have h1 : countKey as (rowKey w) = 1 := ih h.2 hw'
      rw [countKey, List.countP_cons]
      have hne : ¬(rowKey a = rowKey w) := by
        intro he
        exact h.1 (he ▸ List.mem_map.mpr ⟨w, hw', rfl⟩)
      simp only [decide_eq_true_eq, hne, if_false]
      simpa [countKey] using h1

theorem insertAll_nodup (now : ℕ) (rs : List WorkflowRecord) :
    ∀ store : List Row, rowKeysNodup store → rowKeysNodup (insertAll now store rs) := by
  induction rs with
  | nil => intro store h; exact h
  | cons r rs ih => intro store h; exact ih _ (upsertOne_nodup now store r h)

theorem insertAll_frame (now : ℕ) (rs : List WorkflowRecord) :
    ∀ (store : List Row) (w : Row), w ∈ store → rowKey w ∉ rs.map recKey →
      w ∈ insertAll now store rs ∧
        countKey (insertAll now store rs) (rowKey w) = countKey store (rowKey w) := by
  induction rs with
  | nil => intro store w hw _; exact ⟨hw, rfl⟩
  | cons r rs ih =>
    intro store w hw hk
    rw [List.map_cons, List.mem_cons, not_or] at hk
    have step := ih (upsertOne now store r) w
      (mem_upsertOne_of_ne now store r w hw hk.1) hk.2
    exact ⟨step.1, step.2.trans (countKey_upsertOne_of_ne now store r _ hk.1)⟩

theorem insertAll_updates (now : ℕ) (batch : List WorkflowRecord) :
    ∀ (store : List Row) (r : WorkflowRecord) (w : Row),
      (batch.map recKey).Nodup → rowKeysNodup store → w ∈ store → r ∈ batch →
      rowKey w = recKey r →
      updateRow r w ∈ insertAll now store batch ∧
        countKey (insertAll now store batch) (rowKey w) = 1 := by
  induction batch with
  | nil => intro _ _ _ _ _ _ hr _; cases hr
  | cons r0 rs ih =>
    intro store r w hb hs hw hr hk
    rw [List.map_cons, List.nodup_cons] at hb
    rcases List.mem_cons.mp hr with rfl | hr'
    · have hupd : updateRow r w ∈ upsertOne now store r :=
        updateRow_mem_upsertOne now store r w hw hk
      have hnotin : rowKey (updateRow r w) ∉ rs.map recKey := by
        show rowKey w ∉ rs.map recKey
        rw [hk]
        exact hb.1
      obtain ⟨hmem, hcnt⟩ := insertAll_frame now rs (upsertOne now store r)
        (updateRow r w) hupd hnotin
      refine ⟨hmem, ?_⟩
      have hc1 : countKey (upsertOne now store r) (rowKey w) = 1 :=
        (countKey_upsertOne_of_exists now store r ⟨w, hw, hk⟩ _).trans
          (countKey_one_of_nodup store hs w hw)
      exact hcnt.trans hc1
    · have hne : rowKey w ≠ recKey r0 := by
        intro he
        apply hb.1
        rw [← he, hk]
        exact List.mem_map.mpr ⟨r, hr', rfl⟩
      exact ih (upsertOne now store r0) r w hb.2
        (upsertOne_nodup now store r0 hs)
        (mem_upsertOne_of_ne now store r0 w hw hne) hr' hk

theorem ytStats_mem (env : YtEnv) :
    ∀ (bs : List (List String)) (r : WorkflowRecord), r ∈ (ytStats env bs).1 →
      ∃ v : YtVideo, ytProcessItem v = some r := by
  intro bs
  induction bs with
  | nil => intro r hr; simp [ytStats] at hr
  | cons b bs ih =>
    intro r hr
    cases hstats : env.stats b with
    | error e => rw [ytStats, hstats] at hr; simp at hr
    | ok items =>
      rw [ytStats, hstats] at hr
      simp only [List.mem_append] at hr
      rcases hr with hr | hr
      · obtain ⟨v, _, hv⟩ := List.mem_filterMap.mp hr
        exact ⟨v, hv⟩
      · exact ih r hr

theorem ytProcessItem_views (v : YtVideo) (r : WorkflowRecord)
    (h : ytProcessItem v = some r) :
    1 ≤ getNum r.popularity_metrics "views" := by
  unfold ytProcessItem at h
  by_cases hv : v.views = 0
  · rw [if_pos hv] at h; cases h
  · rw [if_neg hv] at h
    injection h with h'
    subst h'
    have hg : getNum
        [("views", MVal.num (v.views : ℚ)),
         ("likes", MVal.num (v.likes : ℚ)),
         ("comments", MVal.num (v.comments : ℚ)),
         ("like_to_view_ratio", MVal.num (ytLikeToView v.likes v.views)),
         ("comment_to_view_ratio", MVal.num (ytCommentToView v.comments v.views)),
         ("total_engagement", MVal.num ((v.likes + v.comments : ℕ) : ℚ)),
         ("engagement_score", MVal.num (ytEngagement v.likes v.comments v.views))]
        "views" = (v.views : ℚ) := rfl
    rw [hg]
    exact_mod_cast Nat.one_le_iff_ne_zero.mpr hv

theorem ytSearchKw_err (env : YtEnv) (kw : String) :
    ∀ (fuel page : ℕ) (e : PyExc), ytSearchKw env kw page fuel = .error e →
      ∃ p, env.search kw p = .error e := by
  intro fuel
  induction fuel with
  | zero => intro page e h; simp [ytSearchKw] at h
  | succ n ih =>
    intro page e h
    rw [ytSearchKw] at h
    split at h
    next e' heq =>
      injection h with h'
      exact ⟨page, h' ▸ heq⟩
    next ids nxt heq =>
      split at h
      · split at h
        next e'' heq2 =>
          injection h with h'
          exact h' ▸ ih (page + 1) e'' heq2
        next rest heq2 => cases h
      · cases h

theorem ytAllIds_err (env : YtEnv) :
    ∀ (kws : List String) (e : PyExc), ytAllIds env kws = .error e →
      ∃ kw p, env.search kw p = .error e := by
  intro kws
  induction kws with
  | nil => intro e h; simp [ytAllIds] at h
  | cons kw rest ih =>
    intro e h
    rw [ytAllIds] at h
    cases hs : ytSearchKw env kw 0 5 with
    | error e' =>
      rw [hs] at h
      injection h with h'
      obtain ⟨p, hp⟩ := ytSearchKw_err env kw 5 0 e' hs
      exact ⟨kw, p, h' ▸ hp⟩
    | ok ids =>
      rw [hs] at h
      cases hrest : ytAllIds env rest with
      | error e'' =>
        rw [hrest] at h
        injection h with h'
        obtain ⟨kw', p, hp⟩ := ih e'' hrest
        exact ⟨kw', p, h' ▸ hp⟩
      | ok _ => rw [hrest] at h; cases h

theorem ytStats_exc (env : YtEnv) :
    ∀ (bs : List (List String)) (e : PyExc), (ytStats env bs).2 = some e →
      ∃ b, env.stats b = .error e := by
  intro bs
  induction bs with
  | nil => intro e h; simp [ytStats] at h
  | cons b bs ih =>
    intro e h
    cases hs : env.stats b with
    | error e' =>
      rw [ytStats, hs] at h
      injection h with h'
      exact ⟨b, h' ▸ hs⟩
    | ok items =>
      rw [ytStats, hs] at h
      exact ih e h

theorem dscPages_exc (env : DscEnv) (kw : String) :
    ∀ (fuel : ℕ) (seen : List ℕ) (ws : List WorkflowRecord) (page : ℕ)
      (out : List ℕ × List WorkflowRecord × Option PyExc) (e : PyExc),
      dscPages env kw seen ws page fuel = out → out.2.2 = some e →
      ∃ p, env.search kw p = .error e := by
  intro fuel
  induction fuel with
  | zero =>
    intro seen ws page out e hout hexc
    rw [dscPages] at hout
    subst hout
    cases hexc
  | succ n ih =>
    intro seen ws page out e hout hexc
    rw [dscPages] at hout
    split at hout
    next e' heq =>
      subst hout
      injection hexc with h'
      exact ⟨page, h' ▸ heq⟩
    next topics heq =>
      split at hout
      · subst hout
        cases hexc
      · exact ih _ _ (page + 1) out e hout hexc

theorem dscKeywords_ret (env : DscEnv) (maxPages : ℕ)
    (hsearch : ∀ kw p e, env.search kw p = .error e → isRequestsExc e = true) :
    ∀ (kws : List String) (seen : List ℕ) (ws : List WorkflowRecord),
      (dscKeywords env maxPages seen ws kws).isRet = true := by
  intro kws
  induction kws with
  | nil => intro seen ws; rfl
  | cons kw rest ih =>
    intro seen ws
    rw [dscKeywords]
    rcases hdp : dscPages env kw seen ws 0 maxPages with ⟨seen', ws', exc⟩
    cases exc with
    | none => exact ih seen' ws'
    | some e =>
      dsimp only
      obtain ⟨p, hp⟩ := dscPages_exc env kw maxPages seen ws 0 _ e hdp rfl
      rw [if_pos (hsearch kw p e hp)]
      exact ih seen' ws'

theorem dscKeywords_all_fail (env : DscEnv) (maxPages : ℕ)
    (hfail : ∀ kw p, env.search kw p = .error .requestException) :
    ∀ (kws : List String) (seen : List ℕ) (ws : List WorkflowRecord),
      dscKeywords env maxPages seen ws kws = .ret ws := by
  intro kws
  induction kws with
  | nil => intro seen ws; rfl
  | cons kw rest ih =>
    intro seen ws
    rw [dscKeywords]
    cases maxPages with
    | zero =>
      rw [show dscPages env kw seen ws 0 0 = (seen, ws, none) from rfl]
      exact ih seen ws
    | succ n =>
      rw [show dscPages env kw seen ws 0 (n + 1) =
        (seen, ws, some .requestException) by rw [dscPages, hfail kw 0]]
      exact ih seen ws

theorem gAttempts_none (env : GEnv) (kw c : String)
    (hfail : ∀ a, ∃ e, env.trends kw c a = .error e) :
    ∀ (fuel attempt : ℕ), (gAttempts env kw c attempt fuel).1 = none := by
  intro fuel
  induction fuel with
  | zero => intro attempt; rfl
  | succ n ih =>
    intro attempt
    obtain ⟨e, he⟩ := hfail attempt
    rw [gAttempts, he]
    cases e with
    | responseError s =>
      dsimp only
      by_cases hs : s = 429
      · rw [if_pos hs]
        exact ih (attempt + 1)
      · rw [if_neg hs]
    | httpError => rfl
    | timeout => rfl
    | requestException => rfl
    | keyError => rfl
    | otherError => rfl

theorem fetch_google_all_fail (env : GEnv)
    (hfail : ∀ kw c a, ∃ e, env.trends kw c a = .error e) :
    ∀ kws cs : List String, (fetch_google_trends env kws cs).1 = [] := by
  have hc : ∀ (kw : String) (cs : List String), (gCountries env kw cs).1 = [] := by
    intro kw cs
    induction cs with
    | nil => rfl
    | cons c cs ih =>
      rw [gCountries, gAttempts_none env kw c (hfail kw c) 3 0, ih]
      rfl
  intro kws cs
  induction kws with
  | nil => rfl
  | cons kw rest ih => rw [fetch_google_trends, hc kw cs, ih]; rfl

theorem gAttempts_success (env : GEnv) (kw c : String) (d : GData)
    (attempt fuel : ℕ) (h : env.trends kw c attempt = .ok d)
    (h12 : d.i12.isEmpty = false) (hkw : d.i12HasKw = true)
    (h3 : d.i3.isEmpty = false → d.i3HasKw = true) :
    gAttempts env kw c attempt (fuel + 1) = (some (gRecord kw c d), []) := by
  rw [gAttempts, h]
  dsimp only
  have hc : ¬d.i12.isEmpty = true ∧ d.i12HasKw = true := by simp [h12, hkw]
  rw [if_pos hc]
  have hc2 : ¬(¬d.i3.isEmpty = true ∧ d.i3HasKw = false) := by
    rintro ⟨hne, hkw3⟩
    have hemp : d.i3.isEmpty = false := by
      cases hb : d.i3.isEmpty
      · rfl
      · exact absurd hb hne
    rw [h3 hemp] at hkw3
    cases hkw3
  rw [if_neg hc2]

theorem gAttempts_success3 (env : GEnv) (kw c : String) (d : GData)
    (h : env.trends kw c 0 = .ok d) (h12 : d.i12.isEmpty = false)
    (hkw : d.i12HasKw = true) (h3 : d.i3.isEmpty = false → d.i3HasKw = true) :
    gAttempts env kw c 0 3 = (some (gRecord kw c d), []) := by
  rw [show (3 : ℕ) = 2 + 1 from rfl]
  exact gAttempts_success env kw c d 0 2 h h12 hkw h3

theorem gAttempts_nonretryable (env : GEnv) (kw c : String) (e : PyExc)
    (h0 : env.trends kw c 0 = .error e)
    (hne : ∀ s : ℕ, e = .responseError s → s ≠ 429) :
    gAttempts env kw c 0 3 = (none, []) := by
  rw [show (3 : ℕ) = 2 + 1 from rfl, gAttempts, h0]
  cases e with
  | responseError s =>
    dsimp only
    rw [if_neg (hne s rfl)]
  | httpError => rfl
  | timeout => rfl
  | requestException => rfl
  | keyError => rfl
  | otherError => rfl

/-! ## Claim theorems -/

/-- Claim C10: every record emitted by the YouTube adapter has
metrics.views at least 1 — any item with view count 0 is skipped even when
its like or comment count is nonzero — so every view-denominator ratio in
an emitted YouTube record has a strictly positive denominator. -/
theorem c10_youtube_views_positive :
    (∀ (env : YtEnv) (kws : List String) (l : List WorkflowRecord)
        (r : WorkflowRecord),
      fetch_youtube_workflows env kws = .ret l → r ∈ l →
        1 ≤ getNum r.popularity_metrics "views") ∧
    (∀ v : YtVideo, v.views = 0 → ytProcessItem v = none) := by
  constructor
  · intro env kws l r hf hr
    unfold fetch_youtube_workflows at hf
    split at hf
    · injection hf with h'
      subst h'
      cases hr
    · split at hf
      · split at hf
        · injection hf with h'
          subst h'
          cases hr
        · cases hf
      · split at hf
        · injection hf with h'
          subst h'
          cases hr
        · split at hf
          · injection hf with h'
            subst h'
            obtain ⟨v, hv⟩ := ytStats_mem env _ r hr
            exact ytProcessItem_views v r hv
          · split at hf
            · injection hf with h'
              subst h'
              obtain ⟨v, hv⟩ := ytStats_mem env _ r hr
              exact ytProcessItem_views v r hv
            · cases hf
  · intro v hv
    simp [ytProcessItem, hv]

/-- Claim C10, witness: the theorem applied to an environment yielding one
video with 1 view, and to a zero-view item with 5 likes. -/
theorem c10_witness :
    fetch_youtube_workflows ytEnvOne ["k"] =
        .ret (pyList (fetch_youtube_workflows ytEnvOne ["k"])) ∧
      1 ≤ getNum ((pyList (fetch_youtube_workflows ytEnvOne ["k"])).headD
        recA).popularity_metrics "views" ∧
      ytProcessItem ytZeroViews = none := by
  have h1 : fetch_youtube_workflows ytEnvOne ["k"] =
      .ret (pyList (fetch_youtube_workflows ytEnvOne ["k"])) := by
    with_unfolding_all decide
  exact ⟨h1,
    c10_youtube_views_positive.1 ytEnvOne ["k"] _ _ h1 (by with_unfolding_all decide),
    c10_youtube_views_positive.2 ytZeroViews rfl⟩

/-- Claim C1, counterexample: the Deduplicator applied to two records
sharing the (A, Video, Global) key keeps `recA`, the FIRST one in iteration
order, not `recB`, the last one — refuting the stated last-write-wins
policy at this concrete input. -/
theorem c1_counterexample :
    dedupRecords [recA, recB] = [recA] ∧ recA ≠ recB ∧
      dedupRecords [recA, recB] ≠ [recB] := by
  refine ⟨?_, ?_, ?_⟩ <;> with_unfolding_all decide

/-- Claim C1 (amended): the Deduplicator returns exactly one record per
distinct (workflow_name, platform, country) key, and the record kept for a
key is the FIRST one in iteration order (adapter order, then item order)
with its metrics intact: for every key, `find?` over the deduplicated list
agrees with `find?` over the input. -/
theorem c1_dedup_first_wins (l : List WorkflowRecord) :
    ((dedupRecords l).map recKey).Nodup ∧
      ∀ k : RecKey,
        (dedupRecords l).find? (fun x => decide (recKey x = k)) =
          l.find? (fun x => decide (recKey x = k)) :=
  ⟨(dedupAux_keys l []).1, fun k => dedupAux_find l k [] (List.not_mem_nil k)⟩

/-- Claim C8, counterexample: in dry-run mode a collected batch of two
records sharing one key is reported as 2 would-be-written workflows, while
the deduplicated count — what would actually be written — is 1; dedup is
never applied on the dry-run path. -/
theorem c8_counterexample :
    cronProcess true 0 [] [recA, recB] = .ok ([], 2) ∧
      (dedupRecords [recA, recB]).length = 1 ∧ (2 : ℕ) ≠ 1 := by
  refine ⟨by with_unfolding_all rfl, by with_unfolding_all decide, by decide⟩

/-- Claim C8 (amended): in dry-run mode the pipeline performs no store
write — the store is returned unchanged — and reports the count of the
collected records BEFORE deduplication (which equals the deduplicated count
only when the collected batch has no duplicate keys). -/
theorem c8_dry_run (now : ℕ) (store : List Row) (workflows : List WorkflowRecord) :
    cronProcess true now store workflows = .ok (store, workflows.length) := by
  simp [cronProcess]

/-- Claim C2, counterexample: the conflict write of `rec0` over `row0`
replaces the metrics and source url but leaves `last_updated` at its old
value 100 instead of refreshing it to the write time 200 — the `set_`
clause of the upsert names only `popularity_metrics` and `source_url`. -/
theorem c2_counterexample :
    upsert_workflows_plain 200 [row0] [rec0] = .ok [row0'] ∧
      row0'.last_updated = 100 ∧ (100 : ℕ) ≠ 200 := by
  refine ⟨by with_unfolding_all rfl, rfl, by decide⟩

/-- Claim C2 (amended): for every upsert batch with pairwise-distinct keys
and every record whose key already exists in a store with unique keys, the
write succeeds and overwrites that row's popularity_metrics and source_url
with the new record's values, leaves every other stored column — id,
the key columns, and in particular `last_updated` — unchanged, and the
store still holds exactly one row for that key. -/
theorem c2_upsert_existing (now : ℕ) (store : List Row)
    (batch : List WorkflowRecord) (r : WorkflowRecord) (w : Row)
    (hb : (batch.map recKey).Nodup) (hs : rowKeysNodup store)
    (hw : w ∈ store) (hr : r ∈ batch) (hk : rowKey w = recKey r) :
    pgUpsert now store batch = .ok (insertAll now store batch) ∧
      updateRow r w ∈ insertAll now store batch ∧
      countKey (insertAll now store batch) (rowKey w) = 1 ∧
      updateRow r w = { w with popularity_metrics := r.popularity_metrics,
                               source_url := r.source_url } := by
  have h := insertAll_updates now batch store r w hb hs hw hr hk
  exact ⟨by simp [pgUpsert, hb], h.1, h.2, rfl⟩

/-- Claim C2, witness: the amended theorem applied to the one-row store
`[row0]` and batch `[rec0]` sharing the key (T, YouTube, Global). -/
theorem c2_witness :
    pgUpsert 200 [row0] [rec0] = .ok (insertAll 200 [row0] [rec0]) ∧
      updateRow rec0 row0 ∈ insertAll 200 [row0] [rec0] ∧
      countKey (insertAll 200 [row0] [rec0]) (rowKey row0) = 1 ∧
      updateRow rec0 row0 = { row0 with popularity_metrics := rec0.popularity_metrics,
                                        source_url := rec0.source_url } :=
  c2_upsert_existing 200 [row0] [rec0] rec0 row0 (by simp)
    (by simp [rowKeysNodup]) (by simp) (by simp) rfl

/-- Claim C3, counterexample: in the run_ingestion.py flow no deduplication
is applied — with a YouTube environment whose single search page carries
two distinct videos titled T, the batch handed to the writer holds two
records with the same (T, YouTube, Global) key, and the single-statement
write then fails. -/
theorem c3_counterexample :
    (run_ingestion_collect dscEnvEmpty ytEnvDupTitle gEnvFail ["k"] ["US"]).isRet = true ∧
      ((pyList (run_ingestion_collect dscEnvEmpty ytEnvDupTitle gEnvFail ["k"] ["US"])).map
          recKey) = [("T", "YouTube", "Global"), ("T", "YouTube", "Global")] ∧
      ¬((pyList (run_ingestion_collect dscEnvEmpty ytEnvDupTitle gEnvFail ["k"] ["US"])).map
          recKey).Nodup ∧
      run_ingestion_write 0 []
          (run_ingestion_collect dscEnvEmpty ytEnvDupTitle gEnvFail ["k"] ["US"]) =
        .raised .otherError := by
  refine ⟨?_, ?_, ?_, ?_⟩ <;> with_unfolding_all decide

/-- Claim C3 (amended): in the cron and test ingestion flows,
`upsert_workflows` applies the Deduplicator to the collected aggregate
before the write, so the batch reaching the single INSERT statement has at
most one record per key, the write succeeds, and afterwards the store
(unique-keyed beforehand) still contains at most one row per key; the plain
run_ingestion.py flow performs no deduplication. -/
theorem c3_dedup_before_write (now : ℕ) (store : List Row)
    (data : List WorkflowRecord) (hs : rowKeysNodup store) :
    ((dedupRecords data).map recKey).Nodup ∧
      ∃ s', upsert_workflows_cron now store data = .ok (s', (dedupRecords data).length) ∧
        rowKeysNodup s' := by
  have hnd := (dedupAux_keys data []).1
  refine ⟨hnd, ?_⟩
  by_cases hdata : data.isEmpty
  · have hnil : data = [] := List.isEmpty_iff.mp hdata
    subst hnil
    exact ⟨store, by simp [upsert_workflows_cron, dedupRecords, dedupAux], hs⟩
  · refine ⟨insertAll now store (dedupRecords data), ?_,
      insertAll_nodup now (dedupRecords data) store hs⟩
    simp [upsert_workflows_cron, hdata, pgUpsert, hnd, dedupRecords]

/-- Claim C3, witness: the amended theorem applied to the empty store and
the duplicate-keyed collected batch `[recA, recB]`. -/
theorem c3_witness :
    ((dedupRecords [recA, recB]).map recKey).Nodup ∧
      ∃ s', upsert_workflows_cron 0 [] [recA, recB] =
          .ok (s', (dedupRecords [recA, recB]).length) ∧ rowKeysNodup s' :=
  c3_dedup_before_write 0 [] [recA, recB] (by simp [rowKeysNodup])

/-- Claim C5, counterexample: `replies_per_contributor` is rounded to 2
decimal places, not 6 — at replies 1, contributors 3 the code stores 0.33
where rounding the quotient to 6 places would give 0.333333. -/
theorem c5_counterexample :
    dscRepliesPerContributor 1 3 = roundTo 2 ((1 : ℚ) / 3) ∧
      roundTo 2 ((1 : ℚ) / 3) = 33/100 ∧
      dscRepliesPerContributor 1 3 ≠ roundTo 6 ((1 : ℚ) / 3) := by
  refine ⟨?_, ?_, ?_⟩ <;> with_unfolding_all decide

/-- Claim C5 (amended): every ratio computed during metric normalization
yields exactly 0 on a zero denominator and never a division error; on a
nonzero denominator the view-denominator ratios and engagement scores are
the quotient rounded to 6 decimal places, while `replies_per_contributor`
and `momentum_score` are rounded to 2 decimal places. -/
theorem c5_ratio_rounding :
    (∀ likes views : ℕ, views = 0 → ytLikeToView likes views = 0) ∧
    (∀ likes views : ℕ, 0 < views →
      ytLikeToView likes views = roundTo 6 ((likes : ℚ) / views)) ∧
    (∀ comments views : ℕ, views = 0 → ytCommentToView comments views = 0) ∧
    (∀ comments views : ℕ, 0 < views →
      ytCommentToView comments views = roundTo 6 ((comments : ℚ) / views)) ∧
    (∀ likes comments views : ℕ, views = 0 → ytEngagement likes comments views = 0) ∧
    (∀ likes comments views : ℕ, 0 < views →
      ytEngagement likes comments views = roundTo 6 (((likes : ℚ) + comments) / views)) ∧
    (∀ replies views : ℕ, views = 0 → dscReplyToView replies views = 0) ∧
    (∀ replies views : ℕ, 0 < views →
      dscReplyToView replies views = roundTo 6 ((replies : ℚ) / views)) ∧
    (∀ likes views : ℕ, views = 0 → dscLikeToView likes views = 0) ∧
    (∀ likes views : ℕ, 0 < views →
      dscLikeToView likes views = roundTo 6 ((likes : ℚ) / views)) ∧
    (∀ contributors views : ℕ, views = 0 → dscContributorToView contributors views = 0) ∧
    (∀ contributors views : ℕ, 0 < views →
      dscContributorToView contributors views = roundTo 6 ((contributors : ℚ) / views)) ∧
    (∀ total views : ℕ, views = 0 → dscEngagement total views = 0) ∧
    (∀ total views : ℕ, 0 < views →
      dscEngagement total views = roundTo 6 ((total : ℚ) / views)) ∧
    (∀ replies contributors : ℕ, contributors = 0 →
      dscRepliesPerContributor replies contributors = 0) ∧
    (∀ replies contributors : ℕ, 0 < contributors →
      dscRepliesPerContributor replies contributors = roundTo 2 ((replies : ℚ) / contributors)) ∧
    (∀ ci aa : ℚ, ¬0 < aa → gMomentum ci aa = 0) ∧
    (∀ ci aa : ℚ, 0 < aa → gMomentum ci aa = roundTo 2 (ci / aa)) := by
  refine ⟨?_, ?_, ?_, ?_, ?_, ?_, ?_, ?_, ?_, ?_, ?_, ?_, ?_, ?_, ?_, ?_, ?_, ?_⟩
  · intro a b hb; simp [ytLikeToView, hb]
  · intro a b hb; simp [ytLikeToView, hb]
  · intro a b hb; simp [ytCommentToView, hb]
  · intro a b hb; simp [ytCommentToView, hb]
  · intro a c b hb; simp [ytEngagement, hb]
  · intro a c b hb; simp [ytEngagement, hb]
  · intro a b hb; simp [dscReplyToView, hb]
  · intro a b hb; simp [dscReplyToView, hb]
  · intro a b hb; simp [dscLikeToView, hb]
  · intro a b hb; simp [dscLikeToView, hb]
  · intro a b hb; simp [dscContributorToView, hb]
  · intro a b hb; simp [dscContributorToView, hb]
  · intro a b hb; simp [dscEngagement, hb]
  · intro a b hb; simp [dscEngagement, hb]
  · intro a b hb; simp [dscRepliesPerContributor, hb]
  · intro a b hb; simp [dscRepliesPerContributor, hb]
  · intro ci aa ha
    have h0 : roundTo 2 (0 : ℚ) = 0 := by with_unfolding_all decide
    simp [gMomentum, ha, h0]
  · intro ci aa ha; simp [gMomentum, ha]

/-- Claim C5, witness: the amended theorem applied at views 0, views 2,
contributors 3, and a momentum denominator of 0 and 2. -/
theorem c5_witness :
    ytLikeToView 5 0 = 0 ∧ ytLikeToView 1 2 = roundTo 6 ((1 : ℚ) / 2) ∧
      ytCommentToView 5 0 = 0 ∧ ytCommentToView 1 2 = roundTo 6 ((1 : ℚ) / 2) ∧
      ytEngagement 1 2 0 = 0 ∧ ytEngagement 1 2 4 = roundTo 6 (((1 : ℚ) + 2) / 4) ∧
      dscReplyToView 3 0 = 0 ∧ dscReplyToView 3 4 = roundTo 6 ((3 : ℚ) / 4) ∧
      dscLikeToView 3 0 = 0 ∧ dscLikeToView 3 4 = roundTo 6 ((3 : ℚ) / 4) ∧
      dscContributorToView 3 0 = 0 ∧ dscContributorToView 3 4 = roundTo 6 ((3 : ℚ) / 4) ∧
      dscEngagement 3 0 = 0 ∧ dscEngagement 3 4 = roundTo 6 ((3 : ℚ) / 4) ∧
      dscRepliesPerContributor 1 0 = 0 ∧
      dscRepliesPerContributor 1 3 = roundTo 2 ((1 : ℚ) / 3) ∧
      gMomentum 5 0 = 0 ∧ gMomentum 5 2 = roundTo 2 ((5 : ℚ) / 2) := by
  obtain ⟨h1, h2, h3, h4, h5, h6, h7, h8, h9, h10, h11, h12, h13, h14, h15, h16, h17, h18⟩ :=
    c5_ratio_rounding
  exact ⟨h1 5 0 rfl, h2 1 2 (by decide), h3 5 0 rfl, h4 1 2 (by decide),
    h5 1 2 0 rfl, h6 1 2 4 (by decide), h7 3 0 rfl, h8 3 4 (by decide),
    h9 3 0 rfl, h10 3 4 (by decide), h11 3 0 rfl, h12 3 4 (by decide),
    h13 3 0 rfl, h14 3 4 (by decide), h15 1 0 rfl, h16 1 3 (by decide),
    h17 5 0 (by norm_num), h18 5 2 (by norm_num)⟩

/-- Claim C4, counterexample: the YouTube adapter's single
`except HttpError` clause does not cover every failure of its external
calls — when the first search call fails with an exception that is not an
HttpError (a transport error, a KeyError from a malformed response), the
fetch propagates that exception past its own boundary instead of returning
a list, refuting the unconditional "never raises" claim. -/
theorem c4_counterexample :
    fetch_youtube_workflows ytEnvTransport ["w"] = .raised .otherError ∧
      (fetch_youtube_workflows ytEnvTransport ["w"]).isRet = false := by
  refine ⟨?_, ?_⟩ <;> with_unfolding_all decide

/-- Claim C4 (amended): each adapter's fetch returns a (possibly empty)
list — never raising — whenever its external calls fail only with the
exception kinds its handlers are written for: HttpError for the YouTube
client calls, the requests RequestException family for the Discourse
search calls (Discourse item-level handling and the whole Google pair loop
catch every Exception); a total source failure of those kinds yields an
empty list for that source rather than failing the pipeline.  An exception
of a kind outside the handled set propagates past the fetch boundary: a
non-HttpError failure of the YouTube search phase and a non-RequestException
failure of a Discourse search are re-raised. -/
theorem c4_adapter_boundary :
    (∀ (env : YtEnv) (kws : List String),
      (∀ kw p e, env.search kw p = .error e → e = .httpError) →
      (∀ b e, env.stats b = .error e → e = .httpError) →
      (fetch_youtube_workflows env kws).isRet = true) ∧
    (∀ (env : DscEnv) (kws : List String) (mk mp : Option ℕ),
      (∀ kw p e, env.search kw p = .error e → isRequestsExc e = true) →
      (fetch_discourse_workflows env kws mk mp).isRet = true) ∧
    (∀ (env : YtEnv) (kws : List String),
      (∀ kw p, env.search kw p = .error .httpError) →
      fetch_youtube_workflows env kws = .ret []) ∧
    (∀ (env : DscEnv) (kws : List String) (mk mp : Option ℕ),
      (∀ kw p, env.search kw p = .error .requestException) →
      fetch_discourse_workflows env kws mk mp = .ret []) ∧
    (∀ (env : GEnv) (kws cs : List String),
      (∀ kw c a, ∃ e, env.trends kw c a = .error e) →
      (fetch_google_trends env kws cs).1 = []) ∧
    (∀ (env : YtEnv) (kws : List String) (e : PyExc),
      env.apiKeyOk = true → ytAllIds env kws = .error e → e ≠ .httpError →
      fetch_youtube_workflows env kws = .raised e) ∧
    (∀ (env : DscEnv) (kw : String) (rest : List String) (e : PyExc),
      env.search kw 0 = .error e → isRequestsExc e = false →
      fetch_discourse_workflows env (kw :: rest) none none = .raised e) := by
  refine ⟨?_, ?_, ?_, ?_, ?_, ?_, ?_⟩
  · intro env kws hsearch hstats
    unfold fetch_youtube_workflows
    split
    · rfl
    · split
      next e heq =>
        have he : e = .httpError := by
          obtain ⟨kw, p, hp⟩ := ytAllIds_err env kws e heq
          exact hsearch kw p e hp
        rw [if_pos he]
        rfl
      next ids heq =>
        split
        · rfl
        · split
          · rfl
          next e hexc =>
            have he : e = .httpError := by
              obtain ⟨b, hb⟩ := ytStats_exc env _ e hexc
              exact hstats b e hb
            rw [if_pos he]
            rfl
  · intro env kws mk mp hsearch
    unfold fetch_discourse_workflows
    exact dscKeywords_ret env _ hsearch _ [] []
  · intro env kws hfail
    unfold fetch_youtube_workflows
    split
    · rfl
    · cases kws with
      | nil => rfl
      | cons kw rest =>
        have h1 : ytAllIds env (kw :: rest) = .error .httpError := by
          rw [ytAllIds,
            show ytSearchKw env kw 0 5 = .error .httpError by
              rw [show (5 : ℕ) = 4 + 1 from rfl, ytSearchKw, hfail kw 0]]
        rw [h1]
        rfl
  · intro env kws mk mp hfail
    unfold fetch_discourse_workflows
    exact dscKeywords_all_fail env _ hfail _ [] []
  · intro env kws cs hfail
    exact fetch_google_all_fail env hfail kws cs
  · intro env kws e hkey hids hne
    unfold fetch_youtube_workflows
    rw [if_neg (by simp [hkey]), hids]
    dsimp only
    rw [if_neg hne]
  · intro env kw rest e hsearch hnot
    unfold fetch_discourse_workflows
    dsimp only
    rw [dscKeywords]
    rw [show dscPages env kw [] [] 0 10 = ([], [], some e) by
      rw [show (10 : ℕ) = 9 + 1 from rfl, dscPages, hsearch]]
    dsimp only
    rw [if_neg (by simp [hnot])]

/-- Claim C4, witness: the amended theorem applied to environments whose
every call fails with a handled kind — each adapter returns an empty list
rather than raising — and to environments failing with an unhandled kind,
where the exception propagates. -/
theorem c4_witness :
    (fetch_youtube_workflows ytEnvFail ["w"]).isRet = true ∧
      (fetch_discourse_workflows dscEnvFail ["w"] none none).isRet = true ∧
      fetch_youtube_workflows ytEnvFail ["w"] = .ret [] ∧
      fetch_discourse_workflows dscEnvFail ["w"] none none = .ret [] ∧
      (fetch_google_trends gEnvFail ["w"] ["US"]).1 = [] ∧
      fetch_youtube_workflows ytEnvTransport ["w"] = .raised .otherError ∧
      fetch_discourse_workflows dscEnvKeyErr ["w"] none none = .raised .keyError := by
  obtain ⟨h1, h2, h3, h4, h5, h6, h7⟩ := c4_adapter_boundary
  refine ⟨h1 ytEnvFail ["w"] ?_ ?_, h2 dscEnvFail ["w"] none none ?_,
    h3 ytEnvFail ["w"] (fun _ _ => rfl), h4 dscEnvFail ["w"] none none (fun _ _ => rfl),
    h5 gEnvFail ["w"] ["US"] (fun _ _ _ => ⟨.otherError, rfl⟩),
    h6 ytEnvTransport ["w"] .otherError rfl (by with_unfolding_all rfl) (by decide),
    h7 dscEnvKeyErr "w" [] .keyError rfl rfl⟩
  · intro kw p e h
    injection h with h'
    exact h'.symm
  · intro b e h
    injection h with h'
    exact h'.symm
  · intro kw p e h
    injection h with h'
    rw [← h']
    rfl

/-- Claim C9: for every interest series whose trailing window holds at
least 2 points, the derived trend direction is exactly one of trending_up,
trending_down, stable — trending_up when the least-squares slope exceeds
the 0.1 dead-zone, trending_down when below -0.1, stable in between — and
the percentage change is computed from window start to window end with a
zero (non-positive) start value replaced by 1 for that computation only. -/
theorem c9_trend_direction (values : List ℚ) (days : ℕ)
    (h2 : 2 ≤ (recentWindow values days).length) :
    (∃ dir : String,
      (dir = "trending_up" ∨ dir = "trending_down" ∨ dir = "stable") ∧
      calculate_trend_direction true values days =
        .trendObj dir (pctChange (recentWindow values days))
          (some (roundTo 4 (linSlope (recentWindow values days))))) ∧
    ((1/10 : ℚ) < linSlope (recentWindow values days) →
      calculate_trend_direction true values days =
        .trendObj "trending_up" (pctChange (recentWindow values days))
          (some (roundTo 4 (linSlope (recentWindow values days))))) ∧
    (linSlope (recentWindow values days) < -(1/10 : ℚ) →
      calculate_trend_direction true values days =
        .trendObj "trending_down" (pctChange (recentWindow values days))
          (some (roundTo 4 (linSlope (recentWindow values days))))) ∧
    (-(1/10 : ℚ) ≤ linSlope (recentWindow values days) →
      linSlope (recentWindow values days) ≤ (1/10 : ℚ) →
      calculate_trend_direction true values days =
        .trendObj "stable" (pctChange (recentWindow values days))
          (some (roundTo 4 (linSlope (recentWindow values days))))) ∧
    ((recentWindow values days).headD 0 = 0 →
      pctChange (recentWindow values days) =
        roundTo 2 ((((recentWindow values days).getLastD 0) - 1) / 1 * 100)) := by
  have hne : values.isEmpty = false := by
    cases values with
    | nil => simp [recentWindow] at h2
    | cons a l => rfl
  have hlen : ¬(recentWindow values days).length < 2 := not_lt.mpr h2
  have hcalc : calculate_trend_direction true values days =
      .trendObj
        (if linSlope (recentWindow values days) > 1/10 then "trending_up"
         else if linSlope (recentWindow values days) < -(1/10) then "trending_down"
         else "stable")
        (pctChange (recentWindow values days))
        (some (roundTo 4 (linSlope (recentWindow values days)))) := by
    rw [calculate_trend_direction]
    rw [if_neg (by simp [hne])]
    rw [if_neg hlen]
  refine ⟨?_, ?_, ?_, ?_, ?_⟩
  · refine ⟨_, ?_, hcalc⟩
    by_cases hup : linSlope (recentWindow values days) > 1/10
    · rw [if_pos hup]; exact Or.inl rfl
    · rw [if_neg hup]
      by_cases hdn : linSlope (recentWindow values days) < -(1/10)
      · rw [if_pos hdn]; exact Or.inr (Or.inl rfl)
      · rw [if_neg hdn]; exact Or.inr (Or.inr rfl)
  · intro hup
    rw [hcalc, if_pos hup]
  · intro hdn
    have hup : ¬linSlope (recentWindow values days) > 1/10 := by linarith
    rw [hcalc, if_neg hup, if_pos hdn]
  · intro hlo hhi
    have hup : ¬linSlope (recentWindow values days) > 1/10 := not_lt.mpr hhi
    have hdn : ¬linSlope (recentWindow values days) < -(1/10) := not_lt.mpr hlo
    rw [hcalc, if_neg hup, if_neg hdn]
  · intro h0
    rw [pctChange, h0]
    norm_num

/-- Claim C9, witness: the theorem applied to the 2-point series [0, 10]
over a 30-day window, whose start value is zero. -/
theorem c9_witness :
    ∃ dir : String,
      (dir = "trending_up" ∨ dir = "trending_down" ∨ dir = "stable") ∧
      calculate_trend_direction true [(0 : ℚ), 10] 30 =
        .trendObj dir (pctChange (recentWindow [(0 : ℚ), 10] 30))
          (some (roundTo 4 (linSlope (recentWindow [(0 : ℚ), 10] 30)))) :=
  (c9_trend_direction [(0 : ℚ), 10] 30 (by decide)).1

/-- Claim C6, counterexample: the YouTube adapter has no page-level retry
loop — an HttpError (the form a rate-limit takes for this client) on the
first keyword's first page aborts the whole fetch with zero retries and
zero backoff waits, and iteration does not continue with the next keyword
even though that keyword's page would have yielded a record. -/
theorem c6_counterexample :
    fetch_youtube_workflows ytEnvRL ["k1", "k2"] = .ret [] ∧
      (pyList (fetch_youtube_workflows ytEnvRL ["k2"])).length = 1 := by
  refine ⟨?_, ?_⟩ <;> with_unfolding_all decide

/-- Claim C6 (amended): only the Google Trends adapter retries on rate
limits: a 429 ResponseError retries the same (keyword, country) request up
to 3 attempts with escalating waits of attempt×5 time units, so a pair that
rate-limits the first 2 attempts and succeeds on the 3rd yields its record
after exactly the backoff waits [5, 10]; a non-retryable error abandons
only the current pair and iteration continues with the next keyword. -/
theorem c6_gtrends_retry :
    (∀ (env : GEnv) (kw c : String) (d : GData),
      env.trends kw c 0 = .error (.responseError 429) →
      env.trends kw c 1 = .error (.responseError 429) →
      env.trends kw c 2 = .ok d →
      d.i12.isEmpty = false → d.i12HasKw = true →
      (d.i3.isEmpty = false → d.i3HasKw = true) →
      gAttempts env kw c 0 3 = (some (gRecord kw c d), [5, 10])) ∧
    (∀ (env : GEnv) (kw c : String) (e : PyExc),
      env.trends kw c 0 = .error e →
      (∀ s : ℕ, e = .responseError s → s ≠ 429) →
      gAttempts env kw c 0 3 = (none, [])) ∧
    (∀ (env : GEnv) (k1 k2 c : String) (d : GData) (e : PyExc),
      env.trends k1 c 0 = .error e →
      (∀ s : ℕ, e = .responseError s → s ≠ 429) →
      env.trends k2 c 0 = .ok d →
      d.i12.isEmpty = false → d.i12HasKw = true →
      (d.i3.isEmpty = false → d.i3HasKw = true) →
      fetch_google_trends env [k1, k2] [c] = ([gRecord k2 c d], [])) := by
  refine ⟨?_, ?_, ?_⟩
  · intro env kw c d h0 h1 h2 h12 hkw h3
    have hsucc := gAttempts_success env kw c d 2 0 h2 h12 hkw h3
    rw [show (3 : ℕ) = 2 + 1 from rfl, gAttempts, h0]
    dsimp only
    rw [if_pos rfl]
    rw [show (2 : ℕ) = 1 + 1 from rfl, gAttempts, h1]
    dsimp only
    rw [if_pos rfl]
    rw [show (1 : ℕ) = 0 + 1 from rfl, hsucc]
  · intro env kw c e h0 hne
    exact gAttempts_nonretryable env kw c e h0 hne
  · intro env k1 k2 c d e h0 hne hk2 h12 hkw h3
    have hp1 := gAttempts_nonretryable env k1 c e h0 hne
    have hp2 := gAttempts_success3 env k2 c d hk2 h12 hkw h3
    simp [fetch_google_trends, gCountries, hp1, hp2]

/-- Claim C6, witness: the amended theorem applied to an environment that
rate-limits attempts 0 and 1 of the pair (k, US) and succeeds on attempt 2,
and to an environment whose keyword k1 fails non-retryably while k2
succeeds. -/
theorem c6_witness :
    gAttempts gEnvRetry "k" "US" 0 3 = (some (gRecord "k" "US" gDataOk), [5, 10]) ∧
      gAttempts gEnvFail "k" "US" 0 3 = (none, []) ∧
      fetch_google_trends gEnvMix ["k1", "k2"] ["US"] =
        ([gRecord "k2" "US" gDataOk], []) := by
  obtain ⟨h1, h2, h3⟩ := c6_gtrends_retry
  exact ⟨h1 gEnvRetry "k" "US" gDataOk rfl rfl rfl rfl rfl (fun _ => rfl),
    h2 gEnvFail "k" "US" .otherError rfl (fun s h => nomatch h),
    h3 gEnvMix "k1" "k2" "US" gDataOk .otherError rfl (fun s h => nomatch h)
      rfl rfl rfl (fun _ => rfl)⟩

/-- Claim C7, counterexample: a YouTube item with views 0, likes 5,
comments 0 has a nonzero raw counter yet is dropped before normalization,
refuting the stated "some nonzero raw counter proceeds and is emitted". -/
theorem c7_counterexample :
    ytProcessItem ytZeroViews = none ∧ ytZeroViews.likes ≠ 0 := by
  exact ⟨rfl, by decide⟩

/-- Claim C7 (amended): an item whose raw engagement counters are all zero
is dropped before normalization in both content adapters; an item with a
nonzero counter is emitted only subject to its adapter's guard — the
YouTube adapter requires `views != 0`, the Discourse adapter requires that
views, replies and likes are not all zero. -/
theorem c7_zero_engagement_skip :
    (∀ v : YtVideo, v.views = 0 → v.likes = 0 → v.comments = 0 →
      ytProcessItem v = none) ∧
    (∀ v : YtVideo, v.views ≠ 0 → ∃ r, ytProcessItem v = some r) ∧
    (∀ (tid : ℕ) (d : DTopicData), d.views = 0 → d.reply_count = 0 →
      d.like_count = 0 → dscProcessItem tid d = none) ∧
    (∀ (tid : ℕ) (d : DTopicData),
      ¬(d.views = 0 ∧ d.reply_count = 0 ∧ d.like_count = 0) →
      ∃ r, dscProcessItem tid d = some r) := by
  refine ⟨?_, ?_, ?_, ?_⟩
  · intro v hv _ _; simp [ytProcessItem, hv]
  · intro v hv
    simp only [ytProcessItem, if_neg hv]
    exact ⟨_, rfl⟩
  · intro tid d hv hr hl; simp [dscProcessItem, hv, hr, hl]
  · intro tid d h
    simp only [dscProcessItem, if_neg h]
    exact ⟨_, rfl⟩

/-- Claim C7, witness: the amended theorem applied to an all-zero YouTube
item and Discourse topic (dropped) and to items with one nonzero counter
(emitted). -/
theorem c7_witness :
    ytProcessItem ⟨"v", "t", 0, 0, 0⟩ = none ∧
      (∃ r, ytProcessItem ⟨"v", "t", 1, 0, 0⟩ = some r) ∧
      dscProcessItem 7 ⟨"t", 0, 0, 0, 3⟩ = none ∧
      ∃ r, dscProcessItem 7 ⟨"t", 4, 0, 0, 0⟩ = some r := by
  obtain ⟨h1, h2, h3, h4⟩ := c7_zero_engagement_skip
  exact ⟨h1 ⟨"v", "t", 0, 0, 0⟩ rfl rfl rfl, h2 ⟨"v", "t", 1, 0, 0⟩ (by decide),
    h3 7 ⟨"t", 0, 0, 0, 3⟩ rfl rfl rfl, h4 7 ⟨"t", 4, 0, 0, 0⟩ (by decide)⟩
